import Mathlib

/-!
Verification of the CourierSathi booking service (`app.py`) against its
design specification.  The Python source is shallowly embedded: strings are
Lean `String`s, Python `str.strip()` is modelled over the ASCII whitespace
class, the database is an explicit list of rows threaded through the
handlers, and the outcome of a connection/insert attempt is an explicit
parameter.  All definitions are executable.
-/

namespace CourierSathi

/-- ASCII whitespace class used by Python `str.strip()` (space, tab,
newline, carriage return, vertical tab, form feed). -/
def isPySpace (c : Char) : Bool :=
  c == ' ' || c == '\t' || c == '\n' || c == '\r' || c == '\x0b' || c == '\x0c'

/-- Remove leading whitespace from a character list. -/
def stripLeft (l : List Char) : List Char := l.dropWhile isPySpace

/-- Remove trailing whitespace from a character list. -/
def stripRight (l : List Char) : List Char := (l.reverse.dropWhile isPySpace).reverse

/-- Model of Python `s.strip()`: drop whitespace from both ends. -/
def pyStrip (s : String) : String := ⟨stripRight (stripLeft s.data)⟩

/-- UTF-8 encoding of a single code point, as a list of byte values. -/
def utf8Bytes (c : Char) : List Nat :=
  let n := c.toNat
  if n < 128 then [n]
  else if n < 2048 then [192 + n / 64, 128 + n % 64]
  else if n < 65536 then [224 + n / 4096, 128 + (n / 64) % 64, 128 + n % 64]
  else [240 + n / 262144, 128 + (n / 4096) % 64, 128 + (n / 64) % 64, 128 + n % 64]

/-- Bytes left unescaped by `urllib.parse.quote` with its default
`safe="/"`: ASCII letters, digits, `_.-~` and `/`. -/
def isSafeByte (b : Nat) : Bool :=
  (65 ≤ b && b ≤ 90) || (97 ≤ b && b ≤ 122) || (48 ≤ b && b ≤ 57) ||
  b == 45 || b == 46 || b == 95 || b == 126 || b == 47

/-- Uppercase hexadecimal digit. -/
def hexChar (n : Nat) : Char := if n < 10 then Char.ofNat (48 + n) else Char.ofNat (55 + n)

/-- Percent-encoding of one byte, as `urllib.parse.quote` produces it. -/
def quoteByte (b : Nat) : String :=
  if isSafeByte b then String.singleton (Char.ofNat b)
  else "%" ++ String.singleton (hexChar (b / 16)) ++ String.singleton (hexChar (b % 16))

/-- Model of `urllib.parse.quote(s)`: percent-encode the UTF-8 bytes of `s`,
leaving the safe bytes alone. -/
def pyQuote (s : String) : String :=
  String.join ((s.data.flatMap utf8Bytes).map quoteByte)

/-! ### Basic facts about stripping -/

theorem dropWhile_dropWhile (p : Char → Bool) (l : List Char) :
    (l.dropWhile p).dropWhile p = l.dropWhile p := by
  induction l with
  | nil => rfl
  | cons a t ih =>
    by_cases h : p a
    · simp [List.dropWhile_cons, h, ih]
    · simp [List.dropWhile_cons, h]

theorem dropWhile_head_false (p : Char → Bool) (l : List Char) (a : Char)
    (t : List Char) (h : l.dropWhile p = a :: t) : p a = false := by
  induction l with
  | nil => simp [List.dropWhile] at h
  | cons x xs ih =>
    by_cases hx : p x
    · exact ih (by simpa [List.dropWhile_cons, hx] using h)
    · rw [List.dropWhile_cons, if_neg (by simp [hx])] at h
      cases h
      simpa using hx

theorem stripRight_stripRight (l : List Char) :
    stripRight (stripRight l) = stripRight l := by
  unfold stripRight
  rw [List.reverse_reverse, dropWhile_dropWhile]

theorem stripRight_append (l : List Char) :
    l = stripRight l ++ (l.reverse.takeWhile isPySpace).reverse := by
  have h : l.reverse.takeWhile isPySpace ++ l.reverse.dropWhile isPySpace = l.reverse :=
    List.takeWhile_append_dropWhile isPySpace l.reverse
  have h2 : l = (l.reverse.takeWhile isPySpace ++ l.reverse.dropWhile isPySpace).reverse := by
    rw [h, List.reverse_reverse]
  rw [List.reverse_append] at h2
  simpa [stripRight] using h2

theorem stripLeft_stripRight_stripLeft (l : List Char) :
    stripLeft (stripRight (stripLeft l)) = stripRight (stripLeft l) := by
  cases hA : stripRight (stripLeft l) with
  | nil => rfl
  | cons b t =>
    have hsplit := stripRight_append (stripLeft l)
    rw [hA] at hsplit
    have hb : isPySpace b = false := by
      apply dropWhile_head_false isPySpace l b (t ++ ((stripLeft l).reverse.takeWhile isPySpace).reverse)
      simpa [stripLeft] using hsplit
    unfold stripLeft
    rw [List.dropWhile_cons, if_neg (by simp [hb])]

theorem pyStrip_idem (s : String) : pyStrip (pyStrip s) = pyStrip s := by
  unfold pyStrip
  rw [stripLeft_stripRight_stripLeft, stripRight_stripRight]

/-! ### Data model -/

/-- A row of the `bookings` table, as inserted by the handlers
(`created_at` is an abstract timestamp). -/
structure Row where
  item_description : String
  sender_name : String
  sender_phone : String
  sender_pincode : String
  receiver_pincode : String
  created_at : Nat
deriving DecidableEq

/-- The five submission fields as decoded from the request.  For the form
dictionary, `none` means the field is absent (`request.form.get(k, "")`
then yields `""`); for a JSON body, `none` means the key is absent or its
value is `null` (`data.get(k) or ""` then yields `""`). -/
structure Fields where
  item_description : Option String
  sender_name : Option String
  sender_phone : Option String
  sender_pincode : Option String
  receiver_pincode : Option String
deriving DecidableEq

/-- Outcome of the `get_db_conn` / `INSERT` block inside a handler: either
the insert succeeds, or some exception is raised and caught. -/
inductive DbOutcome where
  | ok
  | fail (e : String)
deriving DecidableEq

/-- Response of the form handler `/submit`: either a redirect or a
rendered template (`render_template("success.html", ...)`). -/
inductive FormResponse where
  | redirect (target : String)
  | render (tpl : String) (message_text : String) (wa_url : String) (provider_sent : Bool)
deriving DecidableEq

/-- Whether a form response is a redirect. -/
def FormResponse.isRedirect : FormResponse → Bool
  | .redirect _ => true
  | .render _ _ _ _ => false

/-- Result of the form handler: the flash messages it emits (text with
category) and its response. -/
structure FormResult where
  flashes : List (String × String)
  response : FormResponse
deriving DecidableEq

/-- The JSON dictionary a `/api/submit-json` response is built from;
`none` marks keys the handler does not put in the body. -/
structure JsonBody where
  ok : Bool
  errors : Option (List String)
  wa_url : Option String
  message_text : Option String
deriving DecidableEq

/-- Result of the JSON handler: response body and HTTP status. -/
structure JsonResult where
  body : JsonBody
  status : Nat
deriving DecidableEq

/-! ### Validation and formatting, embedded from `submit` (app.py 110-159) -/

/-- Error accumulation of `submit` (app.py 116-126), applied to the
already-trimmed field values. -/
def submitErrs (item_description sender_name sender_phone sender_pincode receiver_pincode : String) : List String :=
  (if item_description = "" then ["Item description required."] else []) ++
  (if sender_name = "" then ["Sender name required."] else []) ++
  (if sender_phone = "" ∨ sender_phone.length < 6 then ["Valid sender phone required."] else []) ++
  (if sender_pincode = "" then ["Sender pincode required."] else []) ++
  (if receiver_pincode = "" then ["Receiver pincode required."] else [])

/-- The notification f-string of `submit` (app.py 150-156). -/
def submitMsg (item_description sender_name sender_phone sender_pincode receiver_pincode : String) : String :=
  "CourierSathi booking:\n" ++
  "Item: " ++ item_description ++ "\n" ++
  "Sender: " ++ sender_name ++ " (" ++ sender_phone ++ ")\n" ++
  "From Pincode: " ++ sender_pincode ++ "\n" ++
  "To Pincode: " ++ receiver_pincode ++ "\n"

/-- The WhatsApp link f-string of `submit` (app.py 157). -/
def submitWaUrl (owner msg_plain : String) : String :=
  "https://wa.me/" ++ owner ++ "?text=" ++ pyQuote msg_plain

/-- The form handler `submit` (app.py 108-159).  `owner` is the configured
`OWNER_WHATSAPP` number, `db` the outcome of the connection/insert block,
`now` the value of `datetime.utcnow()`, and `storage` the current
`bookings` table; the new table is returned alongside the response. -/
def submit (owner : String) (form : Fields) (db : DbOutcome) (now : Nat)
    (storage : List Row) : FormResult × List Row :=
  let item_description := pyStrip (form.item_description.getD "")
  let sender_name := pyStrip (form.sender_name.getD "")
  let sender_phone := pyStrip (form.sender_phone.getD "")
  let sender_pincode := pyStrip (form.sender_pincode.getD "")
  let receiver_pincode := pyStrip (form.receiver_pincode.getD "")
  let errs := submitErrs item_description sender_name sender_phone sender_pincode receiver_pincode
  if errs = [] then
    match db with
    | .fail _ =>
        (⟨[("Server error saving booking. Try again later.", "danger")], .redirect "/"⟩, storage)
    | .ok =>
        let row : Row :=
          ⟨item_description, sender_name, sender_phone, sender_pincode, receiver_pincode, now⟩
        let msg_plain := submitMsg item_description sender_name sender_phone sender_pincode receiver_pincode
        let wa_url := submitWaUrl owner msg_plain
        (⟨[("Booking saved. Click WhatsApp link to notify manually.", "info")],
          .render "success.html" msg_plain wa_url false⟩, storage ++ [row])
  else
    (⟨errs.map (fun e => (e, "danger")), .redirect "/"⟩, storage)

/-! ### Validation and formatting, embedded from `submit_json` (app.py 161-208);
the source duplicates this logic, so the embedding keeps separate definitions. -/

/-- Error accumulation of `submit_json` (app.py 170-180). -/
def submitJsonErrs (item_description sender_name sender_phone sender_pincode receiver_pincode : String) : List String :=
  (if item_description = "" then ["Item description required."] else []) ++
  (if sender_name = "" then ["Sender name required."] else []) ++
  (if sender_phone = "" ∨ sender_phone.length < 6 then ["Valid sender phone required."] else []) ++
  (if sender_pincode = "" then ["Sender pincode required."] else []) ++
  (if receiver_pincode = "" then ["Receiver pincode required."] else [])

/-- The notification f-string of `submit_json` (app.py 200-206). -/
def submitJsonMsg (item_description sender_name sender_phone sender_pincode receiver_pincode : String) : String :=
  "CourierSathi booking:\n" ++
  "Item: " ++ item_description ++ "\n" ++
  "Sender: " ++ sender_name ++ " (" ++ sender_phone ++ ")\n" ++
  "From Pincode: " ++ sender_pincode ++ "\n" ++
  "To Pincode: " ++ receiver_pincode ++ "\n"

/-- The WhatsApp link f-string of `submit_json` (app.py 207). -/
def submitJsonWaUrl (owner msg_plain : String) : String :=
  "https://wa.me/" ++ owner ++ "?text=" ++ pyQuote msg_plain

/-- The JSON handler `submit_json` (app.py 161-208).  `reqJson` models
`request.get_json(silent=True)`: `none` when the body is absent or not
valid JSON (the handler then substitutes the empty object). -/
def submit_json (owner : String) (reqJson : Option Fields) (db : DbOutcome) (now : Nat)
    (storage : List Row) : JsonResult × List Row :=
  let data := reqJson.getD ⟨none, none, none, none, none⟩
  let item_description := pyStrip (data.item_description.getD "")
  let sender_name := pyStrip (data.sender_name.getD "")
  let sender_phone := pyStrip (data.sender_phone.getD "")
  let sender_pincode := pyStrip (data.sender_pincode.getD "")
  let receiver_pincode := pyStrip (data.receiver_pincode.getD "")
  let errs := submitJsonErrs item_description sender_name sender_phone sender_pincode receiver_pincode
  if errs = [] then
    match db with
    | .fail _ => (⟨⟨false, some ["Server DB error"], none, none⟩, 500⟩, storage)
    | .ok =>
        let row : Row :=
          ⟨item_description, sender_name, sender_phone, sender_pincode, receiver_pincode, now⟩
        let msg_plain := submitJsonMsg item_description sender_name sender_phone sender_pincode receiver_pincode
        let wa_url := submitJsonWaUrl owner msg_plain
        (⟨⟨true, none, some wa_url, some msg_plain⟩, 200⟩, storage ++ [row])
  else
    (⟨⟨false, some errs, none, none⟩, 400⟩, storage)

/-! ### Statement helpers: the trimmed-field computations of each handler -/

/-- The error list the form handler computes for a request. -/
def formErrs (f : Fields) : List String :=
  submitErrs (pyStrip (f.item_description.getD "")) (pyStrip (f.sender_name.getD ""))
    (pyStrip (f.sender_phone.getD "")) (pyStrip (f.sender_pincode.getD ""))
    (pyStrip (f.receiver_pincode.getD ""))

/-- The notification message the form handler computes for a request. -/
def formMsgOf (f : Fields) : String :=
  submitMsg (pyStrip (f.item_description.getD "")) (pyStrip (f.sender_name.getD ""))
    (pyStrip (f.sender_phone.getD "")) (pyStrip (f.sender_pincode.getD ""))
    (pyStrip (f.receiver_pincode.getD ""))

/-- The error list the JSON handler computes for a request body. -/
def jsonErrs (b : Option Fields) : List String :=
  let data := b.getD ⟨none, none, none, none, none⟩
  submitJsonErrs (pyStrip (data.item_description.getD "")) (pyStrip (data.sender_name.getD ""))
    (pyStrip (data.sender_phone.getD "")) (pyStrip (data.sender_pincode.getD ""))
    (pyStrip (data.receiver_pincode.getD ""))

/-- The notification message the JSON handler computes for a request body. -/
def jsonMsgOf (b : Option Fields) : String :=
  let data := b.getD ⟨none, none, none, none, none⟩
  submitJsonMsg (pyStrip (data.item_description.getD "")) (pyStrip (data.sender_name.getD ""))
    (pyStrip (data.sender_phone.getD "")) (pyStrip (data.sender_pincode.getD ""))
    (pyStrip (data.receiver_pincode.getD ""))

/-! ### Database connector, embedded from `get_db_conn` (app.py 76-95) -/

/-- Comparison used to model `ORDER BY created_at DESC`: earlier rows have
the later (or equal) timestamp. -/
def rowGE (a b : Row) : Prop := b.created_at ≤ a.created_at

instance : DecidableRel rowGE := fun a b => Nat.decLe b.created_at a.created_at

instance : IsTotal Row rowGE :=
  ⟨fun a b => Or.symm (Nat.le_total a.created_at b.created_at)⟩

instance : IsTrans Row rowGE :=
  ⟨fun _ _ _ hab hbc => Nat.le_trans hbc hab⟩

/-- Relational semantics of the admin query (app.py 216):
`SELECT ... FROM bookings ORDER BY created_at DESC LIMIT limit`. -/
def list_recent (limit : Nat) (table : List Row) : List Row :=
  (List.insertionSort rowGE table).take limit

/-- Result handed to `render_template("admin.html", bookings=rows)`,
together with the flash messages emitted. -/
structure AdminResult where
  flashes : List (String × String)
  bookings : List Row
deriving DecidableEq

/-- The admin handler `admin` (app.py 210-224) after authentication:
`conn` is the outcome of the connection/query block, `table` the stored
`bookings` table. -/
def admin (conn : Except String Unit) (table : List Row) : AdminResult :=
  match conn with
  | .ok _ => ⟨[], list_recent 200 table⟩
  | .error _ => ⟨[("Could not load bookings.", "danger")], []⟩

/-! ### Further statement helpers -/

/-- The WhatsApp link the form handler computes for a request. -/
def formWaUrlOf (owner : String) (f : Fields) : String := submitWaUrl owner (formMsgOf f)

/-- The WhatsApp link the JSON handler computes for a request body. -/
def jsonWaUrlOf (owner : String) (b : Option Fields) : String :=
  submitJsonWaUrl owner (jsonMsgOf b)

/-- The JSON dictionary after the `or {}` default. -/
def jsonFieldsOf (b : Option Fields) : Fields := b.getD ⟨none, none, none, none, none⟩

/-- The row a handler hands to the `INSERT` statement for a request whose
decoded fields are `f`. -/
def insertedRow (f : Fields) (now : Nat) : Row :=
  ⟨pyStrip (f.item_description.getD ""), pyStrip (f.sender_name.getD ""),
   pyStrip (f.sender_phone.getD ""), pyStrip (f.sender_pincode.getD ""),
   pyStrip (f.receiver_pincode.getD ""), now⟩

/-- The five data-model constraints of a stored booking (§3 of the spec):
all five fields non-empty after trimming, and the phone at least six
characters after trimming. -/
def constraintsOk (row : Row) : Prop :=
  pyStrip row.item_description ≠ "" ∧ pyStrip row.sender_name ≠ "" ∧
  pyStrip row.sender_phone ≠ "" ∧ 6 ≤ (pyStrip row.sender_phone).length ∧
  pyStrip row.sender_pincode ≠ "" ∧ pyStrip row.receiver_pincode ≠ ""

/-! ### Helper lemmas -/

theorem submit_eq (owner : String) (form : Fields) (db : DbOutcome) (now : Nat)
    (storage : List Row) :
    submit owner form db now storage =
      if formErrs form = [] then
        match db with
        | .fail _ =>
            (⟨[("Server error saving booking. Try again later.", "danger")], .redirect "/"⟩, storage)
        | .ok =>
            (⟨[("Booking saved. Click WhatsApp link to notify manually.", "info")],
              .render "success.html" (formMsgOf form) (formWaUrlOf owner form) false⟩,
              storage ++ [insertedRow form now])
      else
        (⟨(formErrs form).map (fun e => (e, "danger")), .redirect "/"⟩, storage) := rfl

theorem submit_json_eq (owner : String) (body : Option Fields) (db : DbOutcome) (now : Nat)
    (storage : List Row) :
    submit_json owner body db now storage =
      if jsonErrs body = [] then
        match db with
        | .fail _ => (⟨⟨false, some ["Server DB error"], none, none⟩, 500⟩, storage)
        | .ok =>
            (⟨⟨true, none, some (jsonWaUrlOf owner body), some (jsonMsgOf body)⟩, 200⟩,
              storage ++ [insertedRow (jsonFieldsOf body) now])
      else
        (⟨⟨false, some (jsonErrs body), none, none⟩, 400⟩, storage) := rfl

theorem mem_ite_singleton {x a : String} {c : Prop} [Decidable c] :
    x ∈ (if c then [a] else ([] : List String)) ↔ c ∧ x = a := by
  by_cases h : c <;> simp [h]

theorem ite_append_sublist {c : Prop} [Decidable c] (a : String) (l L : List String)
    (h : l.Sublist L) : ((if c then [a] else []) ++ l).Sublist (a :: L) := by
  by_cases hc : c
  · simpa [hc] using List.Sublist.cons₂ a h
  · simpa [hc] using h.cons a

theorem submitErrs_sublist (i n p s r : String) :
    (submitErrs i n p s r).Sublist
      ["Item description required.", "Sender name required.", "Valid sender phone required.",
       "Sender pincode required.", "Receiver pincode required."] := by
  unfold submitErrs
  simp only [List.append_assoc]
  apply ite_append_sublist
  apply ite_append_sublist
  apply ite_append_sublist
  apply ite_append_sublist
  by_cases h : r = "" <;> simp [h]

theorem submitErrs_mem_item (i n p s r : String) :
    "Item description required." ∈ submitErrs i n p s r ↔ i = "" := by
  simp [submitErrs, List.mem_append, mem_ite_singleton]

theorem submitErrs_mem_name (i n p s r : String) :
    "Sender name required." ∈ submitErrs i n p s r ↔ n = "" := by
  simp [submitErrs, List.mem_append, mem_ite_singleton]

theorem submitErrs_mem_phone (i n p s r : String) :
    "Valid sender phone required." ∈ submitErrs i n p s r ↔ (p = "" ∨ p.length < 6) := by
  simp [submitErrs, List.mem_append, mem_ite_singleton]

theorem submitErrs_mem_spin (i n p s r : String) :
    "Sender pincode required." ∈ submitErrs i n p s r ↔ s = "" := by
  simp [submitErrs, List.mem_append, mem_ite_singleton]

theorem submitErrs_mem_rpin (i n p s r : String) :
    "Receiver pincode required." ∈ submitErrs i n p s r ↔ r = "" := by
  simp [submitErrs, List.mem_append, mem_ite_singleton]

theorem submitErrs_nil_iff (i n p s r : String) :
    submitErrs i n p s r = [] ↔
      (i ≠ "" ∧ n ≠ "" ∧ ¬(p = "" ∨ p.length < 6) ∧ s ≠ "" ∧ r ≠ "") := by
  unfold submitErrs
  by_cases h1 : i = "" <;> by_cases h2 : n = "" <;>
    by_cases h3 : (p = "" ∨ p.length < 6) <;> by_cases h4 : s = "" <;>
    by_cases h5 : r = "" <;> simp [h1, h2, h3, h4, h5]

theorem submitJsonErrs_eq (i n p s r : String) :
    submitJsonErrs i n p s r = submitErrs i n p s r := rfl

theorem constraintsOk_insertedRow {f : Fields} (now : Nat) (h : formErrs f = []) :
    constraintsOk (insertedRow f now) := by
  unfold formErrs at h
  obtain ⟨h1, h2, h3, h4, h5⟩ := (submitErrs_nil_iff _ _ _ _ _).mp h
  push_neg at h3
  obtain ⟨h3a, h3b⟩ := h3
  refine ⟨?_, ?_, ?_, ?_, ?_, ?_⟩ <;>
    simp only [insertedRow, constraintsOk, pyStrip_idem]
  · exact h1
  · exact h2
  · exact h3a
  · exact h3b
  · exact h4
  · exact h5

/-- Modelled from the spec (§6): the fixed notification template, as the
five lines of the spec's code block joined by newlines. -/
def specMessage (item_description sender_name sender_phone sender_pincode receiver_pincode : String) : String :=
  "CourierSathi booking:" ++ "\n" ++
  "Item: " ++ item_description ++ "\n" ++
  "Sender: " ++ sender_name ++ " (" ++ sender_phone ++ ")" ++ "\n" ++
  "From Pincode: " ++ sender_pincode ++ "\n" ++
  "To Pincode: " ++ receiver_pincode ++ "\n"

/-- Modelled from the spec (§6): the WhatsApp link template
`https://wa.me/<configured_phone_no>?text=<url-encoded message>`. -/
def specWaUrl (phone_no msg : String) : String :=
  "https://wa.me/" ++ phone_no ++ "?text=" ++ pyQuote msg

theorem submitMsg_eq_specMessage (i n p s r : String) :
    submitMsg i n p s r = specMessage i n p s r := by
  unfold submitMsg specMessage
  simp only [String.append_assoc]
  rw [← String.append_assoc "CourierSathi booking:" "\n", ← String.append_assoc ")" "\n"]
  simp

/-! ### The claims -/

/-- C1: every booking row either handler inserts satisfies the five field
constraints (all five fields non-empty after trimming, phone of length at
least 6 after trimming), and a submission rejected by validation leaves
storage unchanged at both entry points: validation precedes persistence. -/
theorem validation_precedes_persistence (owner : String) (form : Fields)
    (body : Option Fields) (db : DbOutcome) (now : Nat) (storage : List Row) :
    (formErrs form ≠ [] → (submit owner form db now storage).2 = storage) ∧
    (jsonErrs body ≠ [] → (submit_json owner body db now storage).2 = storage) ∧
    (∀ row ∈ (submit owner form db now storage).2, row ∈ storage ∨ constraintsOk row) ∧
    (∀ row ∈ (submit_json owner body db now storage).2, row ∈ storage ∨ constraintsOk row) := by
  refine ⟨?_, ?_, ?_, ?_⟩
  · intro hne
    rw [submit_eq, if_neg hne]
  · intro hne
    rw [submit_json_eq, if_neg hne]
  · intro row hrow
    rw [submit_eq] at hrow
    by_cases hE : formErrs form = []
    · rw [if_pos hE] at hrow
      cases db with
      | fail e => exact Or.inl hrow
      | ok =>
        rcases List.mem_append.mp hrow with h | h
        · exact Or.inl h
        · rw [List.mem_singleton] at h
          rw [h]
          exact Or.inr (constraintsOk_insertedRow now hE)
    · rw [if_neg hE] at hrow
      exact Or.inl hrow
  · intro row hrow
    rw [submit_json_eq] at hrow
    by_cases hE : jsonErrs body = []
    · rw [if_pos hE] at hrow
      cases db with
      | fail e => exact Or.inl hrow
      | ok =>
        rcases List.mem_append.mp hrow with h | h
        · exact Or.inl h
        · rw [List.mem_singleton] at h
          rw [h]
          exact Or.inr (constraintsOk_insertedRow now
            (show formErrs (jsonFieldsOf body) = [] from hE))
    · rw [if_neg hE] at hrow
      exact Or.inl hrow

/-- C1 witness: an all-blank submission is stored nowhere. -/
theorem validation_precedes_persistence_witness :
    (submit "918290105891" ⟨none, none, none, none, none⟩ .ok 0 []).2 = [] :=
  (validation_precedes_persistence "918290105891" ⟨none, none, none, none, none⟩
    none .ok 0 []).1 (by decide)

/-- C2: validation checks the five fields in the fixed order and
accumulates every failing reason: the error list is always an in-order
sublist of the five fixed reasons, each reason is present exactly when its
field check fails, a payload with exactly one field blank after trimming
yields exactly that field's reason, an all-blank payload yields all five
reasons, and the JSON entry point computes the identical list. -/
theorem errors_fixed_order_accumulated (i n p s r : String) :
    ((submitErrs (pyStrip i) (pyStrip n) (pyStrip p) (pyStrip s) (pyStrip r)).Sublist
      ["Item description required.", "Sender name required.", "Valid sender phone required.",
       "Sender pincode required.", "Receiver pincode required."]) ∧
    ("Item description required." ∈ submitErrs (pyStrip i) (pyStrip n) (pyStrip p) (pyStrip s) (pyStrip r) ↔
      pyStrip i = "") ∧
    ("Sender name required." ∈ submitErrs (pyStrip i) (pyStrip n) (pyStrip p) (pyStrip s) (pyStrip r) ↔
      pyStrip n = "") ∧
    ("Valid sender phone required." ∈ submitErrs (pyStrip i) (pyStrip n) (pyStrip p) (pyStrip s) (pyStrip r) ↔
      (pyStrip p = "" ∨ (pyStrip p).length < 6)) ∧
    ("Sender pincode required." ∈ submitErrs (pyStrip i) (pyStrip n) (pyStrip p) (pyStrip s) (pyStrip r) ↔
      pyStrip s = "") ∧
    ("Receiver pincode required." ∈ submitErrs (pyStrip i) (pyStrip n) (pyStrip p) (pyStrip s) (pyStrip r) ↔
      pyStrip r = "") ∧
    (pyStrip i = "" → pyStrip n ≠ "" → ¬(pyStrip p = "" ∨ (pyStrip p).length < 6) →
      pyStrip s ≠ "" → pyStrip r ≠ "" →
      submitErrs (pyStrip i) (pyStrip n) (pyStrip p) (pyStrip s) (pyStrip r) =
        ["Item description required."]) ∧
    (pyStrip i ≠ "" → pyStrip n = "" → ¬(pyStrip p = "" ∨ (pyStrip p).length < 6) →
      pyStrip s ≠ "" → pyStrip r ≠ "" →
      submitErrs (pyStrip i) (pyStrip n) (pyStrip p) (pyStrip s) (pyStrip r) =
        ["Sender name required."]) ∧
    (pyStrip i ≠ "" → pyStrip n ≠ "" → pyStrip p = "" → pyStrip s ≠ "" → pyStrip r ≠ "" →
      submitErrs (pyStrip i) (pyStrip n) (pyStrip p) (pyStrip s) (pyStrip r) =
        ["Valid sender phone required."]) ∧
    (pyStrip i ≠ "" → pyStrip n ≠ "" → ¬(pyStrip p = "" ∨ (pyStrip p).length < 6) →
      pyStrip s = "" → pyStrip r ≠ "" →
      submitErrs (pyStrip i) (pyStrip n) (pyStrip p) (pyStrip s) (pyStrip r) =
        ["Sender pincode required."]) ∧
    (pyStrip i ≠ "" → pyStrip n ≠ "" → ¬(pyStrip p = "" ∨ (pyStrip p).length < 6) →
      pyStrip s ≠ "" → pyStrip r = "" →
      submitErrs (pyStrip i) (pyStrip n) (pyStrip p) (pyStrip s) (pyStrip r) =
        ["Receiver pincode required."]) ∧
    (pyStrip i = "" → pyStrip n = "" → pyStrip p = "" → pyStrip s = "" → pyStrip r = "" →
      submitErrs (pyStrip i) (pyStrip n) (pyStrip p) (pyStrip s) (pyStrip r) =
        ["Item description required.", "Sender name required.", "Valid sender phone required.",
         "Sender pincode required.", "Receiver pincode required."]) ∧
    submitJsonErrs (pyStrip i) (pyStrip n) (pyStrip p) (pyStrip s) (pyStrip r) =
      submitErrs (pyStrip i) (pyStrip n) (pyStrip p) (pyStrip s) (pyStrip r) := by
  refine ⟨submitErrs_sublist _ _ _ _ _, submitErrs_mem_item _ _ _ _ _,
    submitErrs_mem_name _ _ _ _ _, submitErrs_mem_phone _ _ _ _ _,
    submitErrs_mem_spin _ _ _ _ _, submitErrs_mem_rpin _ _ _ _ _,
    ?_, ?_, ?_, ?_, ?_, ?_, submitJsonErrs_eq _ _ _ _ _⟩ <;>
  · intro h1 h2 h3 h4 h5
    simp [submitErrs, h1, h2, h3, h4, h5]

/-- C2 witness: a payload blank only in the trimmed phone field is
rejected with exactly the phone reason. -/
theorem errors_fixed_order_accumulated_witness :
    submitErrs (pyStrip "Books") (pyStrip "Asha") (pyStrip " ") (pyStrip "560001")
      (pyStrip "110001") = ["Valid sender phone required."] :=
  (errors_fixed_order_accumulated "Books" "Asha" " " "560001" "110001").2.2.2.2.2.2.2.2.1
    (by decide) (by decide) (by decide) (by decide) (by decide)

/-- C3: a trimmed sender phone of length at most 5 always draws the
phone-validity reason; with length at least 6 and the other four fields
valid, validation passes and both entry points store the row; and a
payload valid except for phone `"123"` is rejected with exactly the
phone-validity reason. -/
theorem phone_length_rule (owner i n p s r : String) (now : Nat) (storage : List Row) :
    ((pyStrip p).length ≤ 5 →
      "Valid sender phone required." ∈
        submitErrs (pyStrip i) (pyStrip n) (pyStrip p) (pyStrip s) (pyStrip r)) ∧
    (6 ≤ (pyStrip p).length → pyStrip i ≠ "" → pyStrip n ≠ "" → pyStrip s ≠ "" → pyStrip r ≠ "" →
      submitErrs (pyStrip i) (pyStrip n) (pyStrip p) (pyStrip s) (pyStrip r) = [] ∧
      (submit owner ⟨some i, some n, some p, some s, some r⟩ .ok now storage).2 =
        storage ++ [⟨pyStrip i, pyStrip n, pyStrip p, pyStrip s, pyStrip r, now⟩] ∧
      (submit_json owner (some ⟨some i, some n, some p, some s, some r⟩) .ok now storage).2 =
        storage ++ [⟨pyStrip i, pyStrip n, pyStrip p, pyStrip s, pyStrip r, now⟩]) ∧
    (pyStrip i ≠ "" → pyStrip n ≠ "" → pyStrip s ≠ "" → pyStrip r ≠ "" →
      submitErrs (pyStrip i) (pyStrip n) "123" (pyStrip s) (pyStrip r) =
        ["Valid sender phone required."]) := by
  refine ⟨?_, ?_, ?_⟩
  · intro hlen
    rw [submitErrs_mem_phone]
    right
    omega
  · intro hlen h1 h2 h4 h5
    have hphp : ¬(pyStrip p = "" ∨ (pyStrip p).length < 6) := by
      rintro (he | hl)
      · rw [he] at hlen
        exact absurd hlen (by decide)
      · omega
    have hnil : submitErrs (pyStrip i) (pyStrip n) (pyStrip p) (pyStrip s) (pyStrip r) = [] :=
      (submitErrs_nil_iff _ _ _ _ _).mpr ⟨h1, h2, hphp, h4, h5⟩
    refine ⟨hnil, ?_, ?_⟩
    · rw [submit_eq,
        if_pos (show formErrs ⟨some i, some n, some p, some s, some r⟩ = [] from hnil)]
      rfl
    · rw [submit_json_eq,
        if_pos (show jsonErrs (some ⟨some i, some n, some p, some s, some r⟩) = [] from hnil)]
      rfl
  · intro h1 h2 h4 h5
    have h123 : (("123" : String) = "" ∨ ("123" : String).length < 6) := by decide
    simp [submitErrs, h1, h2, h4, h5, h123]
    decide

/-- C3 witness: the spec's concrete `"123"` scenario, rejected with
exactly the phone reason. -/
theorem phone_length_rule_witness :
    submitErrs (pyStrip "Books") (pyStrip "Asha") "123" (pyStrip "560001")
      (pyStrip "110001") = ["Valid sender phone required."] :=
  (phone_length_rule "918290105891" "Books" "Asha" "9876543210" "560001" "110001" 0 []).2.2
    (by decide) (by decide) (by decide) (by decide)

/-- C4: the notification message both handlers build is a deterministic
function of the five trimmed fields equal to the spec's fixed template,
and the WhatsApp link equals `https://wa.me/<owner>?text=` followed by the
URL-encoded message; on the success path the rendered response carries
exactly these (equal inputs give byte-identical outputs, as every clause
exhibits the outputs as functions of the trimmed fields alone). -/
theorem message_and_link_deterministic (owner i n p s r : String) (now : Nat)
    (storage : List Row) :
    formMsgOf ⟨some i, some n, some p, some s, some r⟩ =
      specMessage (pyStrip i) (pyStrip n) (pyStrip p) (pyStrip s) (pyStrip r) ∧
    jsonMsgOf (some ⟨some i, some n, some p, some s, some r⟩) =
      specMessage (pyStrip i) (pyStrip n) (pyStrip p) (pyStrip s) (pyStrip r) ∧
    formWaUrlOf owner ⟨some i, some n, some p, some s, some r⟩ =
      specWaUrl owner (specMessage (pyStrip i) (pyStrip n) (pyStrip p) (pyStrip s) (pyStrip r)) ∧
    jsonWaUrlOf owner (some ⟨some i, some n, some p, some s, some r⟩) =
      specWaUrl owner (specMessage (pyStrip i) (pyStrip n) (pyStrip p) (pyStrip s) (pyStrip r)) ∧
    (formErrs ⟨some i, some n, some p, some s, some r⟩ = [] →
      (submit owner ⟨some i, some n, some p, some s, some r⟩ .ok now storage).1.response =
        .render "success.html" (formMsgOf ⟨some i, some n, some p, some s, some r⟩)
          (formWaUrlOf owner ⟨some i, some n, some p, some s, some r⟩) false) ∧
    (jsonErrs (some ⟨some i, some n, some p, some s, some r⟩) = [] →
      (submit_json owner (some ⟨some i, some n, some p, some s, some r⟩) .ok now storage).1.body =
        ⟨true, none, some (jsonWaUrlOf owner (some ⟨some i, some n, some p, some s, some r⟩)),
          some (jsonMsgOf (some ⟨some i, some n, some p, some s, some r⟩))⟩) := by
  have hmsg := submitMsg_eq_specMessage (pyStrip i) (pyStrip n) (pyStrip p) (pyStrip s) (pyStrip r)
  refine ⟨hmsg, hmsg, congrArg (fun m => submitWaUrl owner m) hmsg,
    congrArg (fun m => submitJsonWaUrl owner m) hmsg, ?_, ?_⟩
  · intro hnil
    rw [submit_eq, if_pos hnil]
  · intro hnil
    rw [submit_json_eq, if_pos hnil]

/-- C4 witness: the spec's concrete scenario payload, evaluated. -/
theorem message_and_link_deterministic_witness :
    (submit "918290105891" ⟨some "Books", some "Asha", some "9876543210", some "560001",
        some "110001"⟩ .ok 0 []).1.response =
      .render "success.html"
        (specMessage "Books" "Asha" "9876543210" "560001" "110001")
        (specWaUrl "918290105891" (specMessage "Books" "Asha" "9876543210" "560001" "110001"))
        false := by
  have h := message_and_link_deterministic "918290105891" "Books" "Asha" "9876543210"
    "560001" "110001" 0 []
  rw [h.2.2.2.2.1 (by decide), h.1, h.2.2.1]
  rw [(by decide : pyStrip "Books" = "Books"), (by decide : pyStrip "Asha" = "Asha"),
    (by decide : pyStrip "9876543210" = "9876543210"),
    (by decide : pyStrip "560001" = "560001"), (by decide : pyStrip "110001" = "110001")]

/-- C5: the JSON entry point's response contract: 400 with
`ok = false` and the accumulated reasons on validation failure, 500 with
`ok = false` and only `"Server DB error"` on storage failure, 200 with
`ok = true`, the WhatsApp link and the message text on success. -/
theorem json_response_contract (owner : String) (body : Option Fields) (db : DbOutcome)
    (now : Nat) (storage : List Row) :
    (jsonErrs body ≠ [] →
      (submit_json owner body db now storage).1 =
        ⟨⟨false, some (jsonErrs body), none, none⟩, 400⟩) ∧
    (∀ e, jsonErrs body = [] → db = .fail e →
      (submit_json owner body db now storage).1 =
        ⟨⟨false, some ["Server DB error"], none, none⟩, 500⟩) ∧
    (jsonErrs body = [] → db = .ok →
      (submit_json owner body db now storage).1 =
        ⟨⟨true, none, some (jsonWaUrlOf owner body), some (jsonMsgOf body)⟩, 200⟩) := by
  refine ⟨?_, ?_, ?_⟩
  · intro hne
    rw [submit_json_eq, if_neg hne]
  · intro e hnil hdb
    subst hdb
    rw [submit_json_eq, if_pos hnil]
  · intro hnil hdb
    subst hdb
    rw [submit_json_eq, if_pos hnil]

/-- C5 witness: an empty JSON body is answered with status 400 and the
accumulated reasons. -/
theorem json_response_contract_witness :
    (submit_json "918290105891" none .ok 0 []).1 =
      ⟨⟨false, some (jsonErrs none), none, none⟩, 400⟩ :=
  (json_response_contract "918290105891" none .ok 0 []).1 (by decide)

/-- C7: the admin listing never returns more than 200 rows, returns them
in non-increasing `created_at` order, and on a storage failure degrades to
an empty list plus a visible error flash instead of failing (the handler
is a total function). -/
theorem admin_listing_bounded_sorted (conn : Except String Unit) (table : List Row) :
    (admin conn table).bookings.length ≤ 200 ∧
    List.Sorted rowGE (admin conn table).bookings ∧
    (∀ e, conn = .error e →
      (admin conn table).bookings = [] ∧
      (admin conn table).flashes = [("Could not load bookings.", "danger")]) := by
  cases conn with
  | error e =>
    exact ⟨by simp [admin], by simp [admin], fun _ _ => ⟨rfl, rfl⟩⟩
  | ok u =>
    refine ⟨?_, ?_, ?_⟩
    · show (list_recent 200 table).length ≤ 200
      unfold list_recent
      exact List.length_take_le _ _
    · show List.Sorted rowGE (list_recent 200 table)
      unfold list_recent
      exact List.Pairwise.sublist (List.take_sublist _ _) (List.sorted_insertionSort rowGE table)
    · intro e h
      exact absurd h (by simp)

/-- C7 witness: a failed storage read degrades to the empty list and the
error flash. -/
theorem admin_listing_bounded_sorted_witness :
    (admin (.error "down") [⟨"a", "b", "c", "d", "e", 5⟩]).bookings = [] ∧
    (admin (.error "down") [⟨"a", "b", "c", "d", "e", 5⟩]).flashes =
      [("Could not load bookings.", "danger")] :=
  (admin_listing_bounded_sorted (.error "down") [⟨"a", "b", "c", "d", "e", 5⟩]).2.2 "down" rfl

/-- The spec's concrete valid scenario payload. -/
def okFields : Fields :=
  ⟨some "Books", some "Asha", some "9876543210", some "560001", some "110001"⟩

/-- C8 counterexample: on a successful submission the form handler does
not redirect anywhere: it renders the success template directly
(`render_template("success.html", ...)`, app.py 159), so the claimed
"redirect to a success view" is false at this concrete input. -/
theorem submit_success_not_redirect :
    (submit "918290105891" okFields .ok 0 []).1.response =
      .render "success.html" (formMsgOf okFields) (formWaUrlOf "918290105891" okFields) false ∧
    ((submit "918290105891" okFields .ok 0 []).1.response).isRedirect = false :=
  ⟨rfl, rfl⟩

/-- C8 (amended): on a successful submission the form handler responds by
rendering the success view directly (not a redirect), carrying the
notification message and the WhatsApp link; on validation failure it
redirects to `/` with one flash per accumulated error, and on storage
failure it redirects to `/` with the single generic error flash. -/
theorem submit_response_contract (owner : String) (form : Fields) (db : DbOutcome)
    (now : Nat) (storage : List Row) :
    (formErrs form ≠ [] →
      (submit owner form db now storage).1 =
        ⟨(formErrs form).map (fun e => (e, "danger")), .redirect "/"⟩) ∧
    (∀ e, formErrs form = [] → db = .fail e →
      (submit owner form db now storage).1 =
        ⟨[("Server error saving booking. Try again later.", "danger")], .redirect "/"⟩) ∧
    (formErrs form = [] → db = .ok →
      (submit owner form db now storage).1 =
        ⟨[("Booking saved. Click WhatsApp link to notify manually.", "info")],
          .render "success.html" (formMsgOf form) (formWaUrlOf owner form) false⟩) := by
  refine ⟨?_, ?_, ?_⟩
  · intro hne
    rw [submit_eq, if_neg hne]
  · intro e hnil hdb
    subst hdb
    rw [submit_eq, if_pos hnil]
  · intro hnil hdb
    subst hdb
    rw [submit_eq, if_pos hnil]

/-- C8 witness (amended claim): the success path at the concrete scenario
payload. -/
theorem submit_response_contract_witness :
    (submit "918290105891" okFields .ok 0 []).1 =
      ⟨[("Booking saved. Click WhatsApp link to notify manually.", "info")],
        .render "success.html" (formMsgOf okFields) (formWaUrlOf "918290105891" okFields) false⟩ :=
  (submit_response_contract "918290105891" okFields .ok 0 []).2.2 (by decide) rfl

/-- C9: the two entry points implement the identical validation and
storage contract: on payloads carrying the same five field values they
compute the same error list, the same storage effect (hence the same
accept/reject decision and inserted row), the same notification message
and the same WhatsApp link. -/
theorem entry_points_equivalent (owner : String) (f : Fields) (db : DbOutcome)
    (now : Nat) (storage : List Row) :
    formErrs f = jsonErrs (some f) ∧
    (submit owner f db now storage).2 = (submit_json owner (some f) db now storage).2 ∧
    formMsgOf f = jsonMsgOf (some f) ∧
    formWaUrlOf owner f = jsonWaUrlOf owner (some f) := by
  have herr : formErrs f = jsonErrs (some f) := rfl
  refine ⟨herr, ?_, rfl, rfl⟩
  rw [submit_eq, submit_json_eq, ← herr]
  by_cases hE : formErrs f = []
  · rw [if_pos hE, if_pos hE]
    cases db <;> rfl
  · rw [if_neg hE, if_neg hE]

/-- Missing or null JSON fields after the `or ""` coercion: every `none`
field replaced by `some ""`. -/
def fillEmpty (b : Fields) : Fields :=
  ⟨some (b.item_description.getD ""), some (b.sender_name.getD ""),
   some (b.sender_phone.getD ""), some (b.sender_pincode.getD ""),
   some (b.receiver_pincode.getD "")⟩

/-- C10: the JSON entry point is total over malformed input (its embedding
is a total function): an absent or unparseable body is treated exactly as
the empty object, missing or null fields behave exactly as empty strings,
and the all-missing request is answered with the 400 validation response
listing every field's requirement, with storage untouched. -/
theorem json_malformed_input_total (owner : String) (b : Fields) (db : DbOutcome)
    (now : Nat) (storage : List Row) :
    submit_json owner none db now storage =
      submit_json owner (some ⟨none, none, none, none, none⟩) db now storage ∧
    submit_json owner (some (fillEmpty b)) db now storage =
      submit_json owner (some b) db now storage ∧
    (submit_json owner none db now storage).1 =
      ⟨⟨false, some ["Item description required.", "Sender name required.",
        "Valid sender phone required.", "Sender pincode required.",
        "Receiver pincode required."], none, none⟩, 400⟩ ∧
    (submit_json owner none db now storage).2 = storage :=
  ⟨rfl, rfl, rfl, rfl⟩

end CourierSathi
